import Mathlib

/-!
Verification of the HelpingHands match-queue core.

This file gives a shallow embedding of the CSR matching core of the
repository: the request lifecycle (backend/core/Control/requests_services.py),
the flag ledger and its post-save hook (backend/core/signals.py,
backend/core/Control/flagsServices.py, backend/core/entity/admin_entities.py),
candidate ranking and the match-queue state machine
(backend/core/entity/csr_entity.py) and the controller entry point
(backend/core/Control/csr_controller.py).

Conventions of the embedding:
* Database rows become Lean structures; ids are natural numbers; wall-clock
  times are natural numbers and every operation that reads the clock takes an
  explicit `now` argument.
* Every Django operation runs inside `transaction.atomic`, so an exception
  leaves the store unchanged; fallible operations therefore return
  `Except Err ...` and an error result models a rolled-back transaction.
* The states of one request together with its (optional) match queue, its
  flags, the registered CV profiles and the notification log form a `World`.
  The dormant sweep, which scans all queues, acts on a list of such worlds
  (the queues are in one-to-one correspondence with their requests).
* The `MatchQueue` and `Notification` model classes, the `committed` request
  status and the `committed_by_csr`/`committed_at` columns are declared in a
  models module that is not part of the sources here; their shapes below are
  read off from the entity code that uses them and from the data model
  section of the design document.
-/

namespace HelpingHands

/-- Status enum of a service request (`RequestStatus`); the `committed`
member is referenced throughout the entity layer. -/
inductive ReqStatus where
  | review
  | rejected
  | pending
  | committed
  | active
  | complete
deriving DecidableEq

/-- Status enum of a match queue (`MatchQueueStatus`). -/
inductive MQStatus where
  | pending
  | active
  | filled
  | exhausted
deriving DecidableEq

/-- Notification types written by the match-queue code
(`NotificationType`). -/
inductive NotifType where
  | offerSent
  | offerDeclined
  | offerExpired
  | queueAdvanced
  | matchAccepted
  | noMatchFound
deriving DecidableEq

/-- Preference fields of a `PersonInNeed` profile read by the scorer.
`preferredGender` is a blank-able model field: the empty string stands for
no expressed preference, mirroring Python truthiness of blank strings. -/
structure Pin where
  preferredLanguage : String
  preferredGender : String
deriving DecidableEq

/-- Fields of a `CV` profile read by the scorer and by queue building.
`secondLanguage` is blank-able (empty string means none). -/
structure CVProf where
  id : Nat
  gender : String
  mainLanguage : String
  secondLanguage : String
  categoryPref : String
deriving DecidableEq

/-- A `Request` row: assignee `cv`, lifecycle `status`, committer stamp
`committedBy`/`committedAt` and completion stamp, plus the fields the
candidate scorer reads (`serviceType` and the requester preferences). -/
structure Request where
  pin : Pin
  serviceType : String
  cv : Option Nat
  status : ReqStatus
  committedBy : Option Nat
  committedAt : Option Nat
  completedAt : Option Nat
deriving DecidableEq

/-- A `MatchQueue` row: three positional candidate slots, a 1-based cursor,
a status and the offer timestamps. -/
structure MatchQueue where
  cv1queue : Option Nat
  cv2queue : Option Nat
  cv3queue : Option Nat
  currentIndex : Nat
  status : MQStatus
  sentAt : Option Nat
  deadline : Option Nat
deriving DecidableEq

/-- A notification event as recorded by the entity layer: its type, the CV
it references (nullable) and the queue rank from its metadata (when the
source attaches one). -/
structure Notif where
  ntype : NotifType
  cv : Option Nat
  rank : Option Nat
deriving DecidableEq

/-- Origin of a flag (`FlagType`). -/
inductive FlagKind where
  | auto
  | manual
deriving DecidableEq

/-- Resolution outcome of a flag (`ResolutionOutcome`). -/
inductive Outcome where
  | accepted
  | rejected
deriving DecidableEq

/-- A `FlaggedRequest` row for the single request of a `World`. -/
structure Flag where
  kind : FlagKind
  csr : Option Nat
  reason : String
  resolved : Bool
  resolvedAt : Option Nat
  resolvedBy : Option Nat
  notes : String
  outcome : Option Outcome
deriving DecidableEq

/-- The store restricted to one request: the registered CV profiles, the
request row, its optional match queue, its flags and the append-only
notification log (all notifications about this request, in creation
order). -/
structure World where
  cvs : List CVProf
  req : Request
  mq : Option MatchQueue
  flags : List Flag
  log : List Notif
deriving DecidableEq

/-- Domain errors; each constructor corresponds to one exception site in the
sources. `noCommitter` models the `AttributeError` raised by
`req.committed_by_csr.user` when the request has no committer (the enclosing
transaction then rolls back). -/
inductive Err where
  | invalidCategory
  | invalidTransition
  | onlyPendingCommit
  | pickCount
  | cvsNotFound
  | queueNotFound
  | invalidDecision
  | flagNotFound
  | noCommitter
deriving DecidableEq

/-! ## Candidate ranking (MatchEntity._score_cv_for_request / suggest_top) -/

/-- Score one CV for a request, returning the score and the reason keys in
insertion order; translation of `MatchEntity._score_cv_for_request`. All
scores in the source are integral floats, so natural numbers are used. The
final unconditional increment is the availability placeholder
(`score += 1.0`). -/
def scoreCvForRequest (req : Request) (cv : CVProf) : Nat × List String :=
  let s1 : Nat × List String :=
    if cv.categoryPref = req.serviceType then (3, ["category"]) else (0, [])
  let s2 : Nat × List String :=
    if req.pin.preferredGender ≠ "" ∧ cv.gender = req.pin.preferredGender then
      (s1.1 + 2, s1.2 ++ ["gender"])
    else s1
  let s3 : Nat × List String :=
    if cv.mainLanguage = req.pin.preferredLanguage then
      (s2.1 + 2, s2.2 ++ ["language_main"])
    else if cv.secondLanguage ≠ "" ∧ cv.secondLanguage = req.pin.preferredLanguage then
      (s2.1 + 1, s2.2 ++ ["language_second"])
    else s2
  (s3.1 + 1, s3.2)

/-- One entry of the auto-suggest result (`Suggestion`). -/
structure Suggestion where
  cvId : Nat
  score : Nat
  reason : List String
deriving DecidableEq

/-- Translation of `MatchEntity.suggest_top`: score every registered CV,
keep strictly positive scores, sort by score descending (Python list.sort
is a stable merge sort) and truncate to `limit`. -/
def suggestTop (req : Request) (cvs : List CVProf) (limit : Nat := 7) : List Suggestion :=
  let scored := cvs.filterMap fun cv =>
    let sw := scoreCvForRequest req cv
    if sw.1 > 0 then some ⟨cv.id, sw.1, sw.2⟩ else none
  (scored.mergeSort fun a b => b.score ≤ a.score).take limit

/-- Scoring formula as the claim states it: +3 for a category match, +2 for
a gender match when the PIN expressed a preference, +2 for a main-language
match or else +1 for a second-language match, and nothing else. Stated from
the words of the claim for comparison with `scoreCvForRequest`. -/
def claimScore (req : Request) (cv : CVProf) : Nat :=
  (if cv.categoryPref = req.serviceType then 3 else 0)
    + (if req.pin.preferredGender ≠ "" ∧ cv.gender = req.pin.preferredGender then 2 else 0)
    + (if cv.mainLanguage = req.pin.preferredLanguage then 2
       else if cv.secondLanguage ≠ "" ∧ cv.secondLanguage = req.pin.preferredLanguage then 1
       else 0)

/-! ## Request lifecycle (Control/requests_services.py, entity commit) -/

/-- Valid service categories (`ServiceCategory` choices). -/
def validCategories : List String :=
  ["Healthcare", "Therapy", "Dialysis", "Vaccination / Check-up",
   "Mobility Assistance", "Community Event"]

/-- Translation of `create_request`: validates the category, then creates
the request in `review` with empty assignee and committer stamps. The
`cvs` argument is the population of registered CV profiles of the store. -/
def createRequest (cvs : List CVProf) (pin : Pin) (serviceType : String) :
    Except Err World :=
  if validCategories.contains serviceType then
    .ok { cvs := cvs
          req := { pin := pin, serviceType := serviceType, cv := none,
                   status := .review, committedBy := none, committedAt := none,
                   completedAt := none }
          mq := none, flags := [], log := [] }
  else .error .invalidCategory

/-- Translation of `_assert_status`. -/
def assertStatus (r : Request) (expected : ReqStatus) : Except Err Unit :=
  if r.status = expected then .ok () else .error .invalidTransition

/-- Translation of `moderation_pass`: `review → pending`. -/
def moderationPass (w : World) : Except Err World :=
  match assertStatus w.req .review with
  | .error e => .error e
  | .ok _ => .ok { w with req := { w.req with status := .pending } }

/-- Translation of `moderation_reject`: `review → rejected`. -/
def moderationReject (w : World) : Except Err World :=
  match assertStatus w.req .review with
  | .error e => .error e
  | .ok _ => .ok { w with req := { w.req with status := .rejected } }

/-- Translation of `assign_cv`: `pending → active`, sets the assignee; the
committer stamps are not touched. -/
def assignCv (cvId : Nat) (w : World) : Except Err World :=
  match assertStatus w.req .pending with
  | .error e => .error e
  | .ok _ => .ok { w with req := { w.req with cv := some cvId, status := .active } }

/-- Translation of `unassign_cv`: `active → pending`, clears the assignee;
the committer stamps are not touched. -/
def unassignCv (w : World) : Except Err World :=
  match assertStatus w.req .active with
  | .error e => .error e
  | .ok _ => .ok { w with req := { w.req with cv := none, status := .pending } }

/-- Translation of `complete_request` together with the `Request.save`
hook, which stamps `completed_at` on the first save in `complete`. -/
def completeRequest (now : Nat) (w : World) : Except Err World :=
  match assertStatus w.req .active with
  | .error e => .error e
  | .ok _ =>
    .ok { w with req :=
      { w.req with status := .complete,
                   completedAt := match w.req.completedAt with
                                  | none => some now
                                  | some t => some t } }

/-- Translation of `RequestEntity.commit`: `pending → committed`, stamping
committer and commit time. -/
def commitRequest (csrId : Nat) (now : Nat) (w : World) : Except Err World :=
  if w.req.status ≠ .pending then .error .onlyPendingCommit
  else .ok { w with req :=
    { w.req with status := .committed,
                 committedBy := some csrId, committedAt := some now } }

/-! ## Flag ledger (signals.py, flagsServices.py, admin_entities.py) -/

/-- Translation of the `post_save` receiver
`move_request_to_review_on_open_flag`: any save of an unresolved flag
forces the parent request to `review` (the source update excludes rows
already in `review` as an optimisation; the resulting status is `review`
either way). -/
def moveRequestToReviewOnOpenFlag (f : Flag) (r : Request) : Request :=
  if f.resolved then r else { r with status := .review }

/-- Persist a newly created flag; `FlaggedRequest.objects.create` saves the
row, which fires the post-save receiver. -/
def createFlag (f : Flag) (w : World) : World :=
  { w with flags := w.flags ++ [f], req := moveRequestToReviewOnOpenFlag f w.req }

/-- Reason defaulting of `auto_flag_request`. -/
def cleanReasonAuto (reason : String) : String :=
  if reason.trim = "" then "Auto moderation flagged this request." else reason.trim

/-- Reason defaulting of `manual_flag_request`. -/
def cleanReasonManual (reason : String) : String :=
  if reason.trim = "" then "CSR manually flagged this request." else reason.trim

/-- Translation of `auto_flag_request`. -/
def autoFlagRequest (reason : String) (w : World) : World :=
  createFlag { kind := .auto, csr := none, reason := cleanReasonAuto reason,
               resolved := false, resolvedAt := none, resolvedBy := none,
               notes := "", outcome := none } w

/-- Translation of `manual_flag_request`. -/
def manualFlagRequest (csrId : Nat) (reason : String) (w : World) : World :=
  createFlag { kind := .manual, csr := some csrId, reason := cleanReasonManual reason,
               resolved := false, resolvedAt := none, resolvedBy := none,
               notes := "", outcome := none } w

/-- Note appending of `accept_flag`/`reject_flag`. -/
def appendNotes (old notes : String) : String :=
  if notes ≠ "" then
    if old ≠ "" then (old ++ "\n" ++ notes).trim else notes
  else old

/-- Translation of `FlagEntity.accept_flag` followed by
`RequestEntity.update_status_after_pa_action(action="accept")`: resolve the
flag with outcome accepted, then force the request to `pending` and clear
both committer stamps. Saving the now-resolved flag fires the post-save
receiver, which does nothing for resolved flags. -/
def acceptFlag (i : Nat) (paId : Nat) (notes : String) (now : Nat) (w : World) :
    Except Err World :=
  match w.flags.get? i with
  | none => .error .flagNotFound
  | some f =>
    let f2 := { f with resolved := true, resolvedAt := some now,
                       resolvedBy := some paId, outcome := some Outcome.accepted,
                       notes := appendNotes f.notes notes }
    let r1 := moveRequestToReviewOnOpenFlag f2 w.req
    .ok { w with flags := w.flags.set i f2,
                 req := { r1 with status := .pending, committedBy := none,
                                  committedAt := none } }

/-- Translation of `FlagEntity.reject_flag` followed by
`RequestEntity.update_status_after_pa_action(action="reject")`: resolve the
flag with outcome rejected, then force the request to `rejected` (committer
stamps are not touched). -/
def rejectFlag (i : Nat) (paId : Nat) (notes : String) (now : Nat) (w : World) :
    Except Err World :=
  match w.flags.get? i with
  | none => .error .flagNotFound
  | some f =>
    let f2 := { f with resolved := true, resolvedAt := some now,
                       resolvedBy := some paId, outcome := some Outcome.rejected,
                       notes := appendNotes f.notes notes }
    let r1 := moveRequestToReviewOnOpenFlag f2 w.req
    .ok { w with flags := w.flags.set i f2, req := { r1 with status := .rejected } }

/-! ## Match queue (MatchEntity / MatchProgressEntity) -/

/-- Translation of `MatchEntity.set_assignment_pool`: between 1 and 3 CV
ids, all of which must resolve to registered CVs (duplicates are kept: the
source rebuilds `ordered` by iterating the submitted id list); any previous
queue is fully overwritten with cursor 1, status `pending` and cleared
timestamps. The request row is not read or changed beyond locking. -/
def setAssignmentPool (cvIds : List Nat) (w : World) : Except Err World :=
  if ¬ (1 ≤ cvIds.length ∧ cvIds.length ≤ 3) then .error .pickCount
  else
    let ordered := cvIds.filter fun cid => w.cvs.any fun cv => cv.id = cid
    if ordered.length ≠ cvIds.length then .error .cvsNotFound
    else
      .ok { w with mq := some { cv1queue := ordered.get? 0,
                                cv2queue := ordered.get? 1,
                                cv3queue := ordered.get? 2, currentIndex := 1,
                                status := .pending, sentAt := none,
                                deadline := none } }

/-- Translation of `MatchProgressEntity._get_current_cv`. -/
def getCurrentCv (mq : MatchQueue) : Option Nat :=
  if mq.currentIndex = 1 then mq.cv1queue
  else if mq.currentIndex = 2 then mq.cv2queue
  else if mq.currentIndex = 3 then mq.cv3queue
  else none

/-- The candidate named by the offer-sent notification of `send_offers`:
`[cv1, cv2, cv3][current_index - 1] if current_index <= 3 else None`. The
cursor is 1-based everywhere in the source (built at 1, advanced to 2 or
3), for which this agrees with the Python indexing expression. -/
def offerSlotCv (mq : MatchQueue) : Option Nat :=
  if mq.currentIndex ≤ 3 then
    match mq.currentIndex with
    | 1 => mq.cv1queue
    | 2 => mq.cv2queue
    | 3 => mq.cv3queue
    | _ => none
  else none

/-- Translation of `MatchEntity.send_offers`: requires an existing queue
(`MatchQueue.objects...get` raises otherwise); unconditionally moves it to
`active` with a fresh offer window and records an offer-sent notification
for the candidate at the cursor. The notification recipient is
`req.committed_by_csr.user`, which raises when the request has no
committer. -/
def sendOffers (timeoutMinutes : Nat) (now : Nat) (w : World) : Except Err World :=
  match w.mq with
  | none => .error .queueNotFound
  | some mq =>
    match w.req.committedBy with
    | none => .error .noCommitter
    | some _ =>
      let mq2 := { mq with status := MQStatus.active, sentAt := some now,
                           deadline := some (now + timeoutMinutes) }
      .ok { w with mq := some mq2,
                   log := w.log ++ [{ ntype := .offerSent, cv := offerSlotCv mq2,
                                      rank := some mq2.currentIndex }] }

/-- Translation of `MatchProgressEntity._advance_queue` on a request and
its queue, returning the updated rows and the notifications it appends.
If slot `current_index + 1` is filled: cursor moves there, fresh 30-minute
window, status `active`, queue-advanced notification. Otherwise: status
`exhausted`, no-match-found notification, and the request reverts to
`committed` with its assignee cleared. Both branches notify
`req.committed_by_csr.user`. -/
def advanceQueueCore (now : Nat) (req : Request) (mq : MatchQueue) :
    Except Err (Request × MatchQueue × List Notif) :=
  match req.committedBy with
  | none => .error .noCommitter
  | some _ =>
    let nxt := mq.currentIndex + 1
    let nextCv : Option Nat :=
      if nxt = 2 then mq.cv2queue else if nxt = 3 then mq.cv3queue else none
    match nextCv with
    | some v =>
      let mq2 := { mq with currentIndex := nxt, sentAt := some now,
                           deadline := some (now + 30), status := MQStatus.active }
      .ok (req, mq2, [{ ntype := .queueAdvanced, cv := some v, rank := some nxt }])
    | none =>
      let mq2 := { mq with status := MQStatus.exhausted }
      .ok ({ req with status := .committed, cv := none }, mq2,
           [{ ntype := .noMatchFound, cv := none, rank := none }])

/-- Translation of `MatchProgressEntity.record_cv_decision`: requires an
existing queue, a current candidate equal to `cvId` and status `active`;
on accept the request becomes `active` with the candidate assigned and the
queue `filled`; on decline an offer-declined notification is recorded and
the queue advances. -/
def recordCvDecision (cvId : Nat) (accepted : Bool) (now : Nat) (w : World) :
    Except Err World :=
  match w.mq with
  | none => .error .queueNotFound
  | some mq =>
    match getCurrentCv mq with
    | none => .error .invalidDecision
    | some cur =>
      if cur ≠ cvId ∨ mq.status ≠ .active then .error .invalidDecision
      else
        match w.req.committedBy with
        | none => .error .noCommitter
        | some _ =>
          if accepted then
            .ok { w with req := { w.req with cv := some cur, status := .active },
                         mq := some { mq with status := MQStatus.filled },
                         log := w.log ++ [{ ntype := .matchAccepted, cv := some cur,
                                            rank := none }] }
          else
            match advanceQueueCore now w.req mq with
            | .error e => .error e
            | .ok (req2, mq2, notifs) =>
              .ok { w with req := req2, mq := some mq2,
                           log := w.log
                                  ++ [{ ntype := .offerDeclined, cv := some cur, rank := none }]
                                  ++ notifs }

/-- Translation of `MatchProgressEntity.ensure_current_queue`, the state
effect of the controller read `CSRMatchController.get_assignment_pool`: a
missing request or queue yields no change; an `active` queue whose deadline
has passed is advanced in place; otherwise nothing changes. -/
def ensureCurrentQueue (now : Nat) (w : World) : Except Err World :=
  match w.mq with
  | none => .ok w
  | some mq =>
    match mq.deadline with
    | none => .ok w
    | some d =>
      if mq.status = .active ∧ d < now then
        match advanceQueueCore now w.req mq with
        | .error e => .error e
        | .ok (req2, mq2, notifs) =>
          .ok { w with req := req2, mq := some mq2, log := w.log ++ notifs }
      else .ok w

/-- One queue of the dormant sweep `auto_advance_dormant`: an `active`
queue with a non-null passed deadline is advanced and an offer-expired
notification is recorded for `_get_current_cv` of the advanced queue;
everything else is skipped. Returns the advanced count (0 or 1). -/
def sweepOne (now : Nat) (w : World) : Except Err (World × Nat) :=
  match w.mq with
  | none => .ok (w, 0)
  | some mq =>
    match mq.deadline with
    | none => .ok (w, 0)
    | some d =>
      if mq.status = .active ∧ d < now then
        match advanceQueueCore now w.req mq with
        | .error e => .error e
        | .ok (req2, mq2, notifs) =>
          .ok ({ w with req := req2, mq := some mq2,
                        log := w.log ++ notifs
                               ++ [{ ntype := .offerExpired, cv := getCurrentCv mq2,
                                     rank := none }] },
               1)
      else .ok (w, 0)

/-- Translation of `MatchProgressEntity.auto_advance_dormant` over the
whole store (one world per request, queues being one-to-one with requests):
sweep every queue past its deadline and return the advanced count. The
single enclosing transaction makes any failure abort the whole sweep. -/
def autoAdvanceDormant (now : Nat) : List World → Except Err (List World × Nat)
  | [] => .ok ([], 0)
  | w :: ws =>
    match sweepOne now w with
    | .error e => .error e
    | .ok (w2, c) =>
      match autoAdvanceDormant now ws with
      | .error e => .error e
      | .ok (ws2, n) => .ok (w2 :: ws2, c + n)

/-! ## Reachability of store states under the core operations -/

/-- One mutating core operation applied successfully to the store state of
a request (the read-only listings change nothing). Pure operations (flag
creation) always succeed; the fallible ones contribute a step exactly when
they return `ok`, matching transaction rollback on failure. -/
inductive Step : World → World → Prop where
  | moderationPass (w w2 : World) : moderationPass w = .ok w2 → Step w w2
  | moderationReject (w w2 : World) : moderationReject w = .ok w2 → Step w w2
  | assignCv (cvId : Nat) (w w2 : World) : assignCv cvId w = .ok w2 → Step w w2
  | unassignCv (w w2 : World) : unassignCv w = .ok w2 → Step w w2
  | completeRequest (now : Nat) (w w2 : World) :
      completeRequest now w = .ok w2 → Step w w2
  | commitRequest (csrId now : Nat) (w w2 : World) :
      commitRequest csrId now w = .ok w2 → Step w w2
  | autoFlagRequest (reason : String) (w : World) :
      Step w (autoFlagRequest reason w)
  | manualFlagRequest (csrId : Nat) (reason : String) (w : World) :
      Step w (manualFlagRequest csrId reason w)
  | acceptFlag (i paId : Nat) (notes : String) (now : Nat) (w w2 : World) :
      acceptFlag i paId notes now w = .ok w2 → Step w w2
  | rejectFlag (i paId : Nat) (notes : String) (now : Nat) (w w2 : World) :
      rejectFlag i paId notes now w = .ok w2 → Step w w2
  | setAssignmentPool (cvIds : List Nat) (w w2 : World) :
      setAssignmentPool cvIds w = .ok w2 → Step w w2
  | sendOffers (timeoutMinutes now : Nat) (w w2 : World) :
      sendOffers timeoutMinutes now w = .ok w2 → Step w w2
  | recordCvDecision (cvId : Nat) (accepted : Bool) (now : Nat) (w w2 : World) :
      recordCvDecision cvId accepted now w = .ok w2 → Step w w2
  | ensureCurrentQueue (now : Nat) (w w2 : World) :
      ensureCurrentQueue now w = .ok w2 → Step w w2
  | sweep (now : Nat) (c : Nat) (w w2 : World) :
      sweepOne now w = .ok (w2, c) → Step w w2

/-- A store state reachable from request creation by core operations. -/
def Reachable (w : World) : Prop :=
  ∃ w0 cvs pin serviceType, createRequest cvs pin serviceType = .ok w0 ∧
    Relation.ReflTransGen Step w0 w

/-- Committer-stamp coherence of a request row: `committedBy` and
`committedAt` are both null or both set, and a `committed` request carries
a committer. -/
def CommitInv (r : Request) : Prop :=
  (r.committedBy = none ↔ r.committedAt = none) ∧
    (r.status = .committed → r.committedBy ≠ none)

theorem advanceQueueCore_committed (now : Nat) (req req2 : Request) (mq mq2 : MatchQueue)
    (ns : List Notif) (h : advanceQueueCore now req mq = .ok (req2, mq2, ns)) :
    req2.committedBy = req.committedBy ∧ req2.committedAt = req.committedAt ∧
      req.committedBy ≠ none := by
  unfold advanceQueueCore at h
  match hc : req.committedBy with
  | none => rw [hc] at h; simp at h
  | some c =>
    rw [hc] at h
    simp only [] at h
    split at h
    · simp only [Except.ok.injEq, Prod.mk.injEq] at h
      obtain ⟨h1, _, _⟩ := h
      subst h1
      simp [hc]
    · simp only [Except.ok.injEq, Prod.mk.injEq] at h
      obtain ⟨h1, _, _⟩ := h
      subst h1
      simp [hc]

theorem step_preserves_commitInv (w w2 : World) (h : Step w w2)
    (inv : CommitInv w.req) : CommitInv w2.req := by
  obtain ⟨hiff, hcomm⟩ := inv
  cases h with
  | moderationPass w w2 h =>
    unfold moderationPass assertStatus at h
    split at h
    · cases h
    · cases h; exact ⟨by simpa using hiff, by simp⟩
  | moderationReject w w2 h =>
    unfold moderationReject assertStatus at h
    split at h
    · cases h
    · cases h; exact ⟨by simpa using hiff, by simp⟩
  | assignCv cvId w w2 h =>
    unfold assignCv assertStatus at h
    split at h
    · cases h
    · cases h; exact ⟨by simpa using hiff, by simp⟩
  | unassignCv w w2 h =>
    unfold unassignCv assertStatus at h
    split at h
    · cases h
    · cases h; exact ⟨by simpa using hiff, by simp⟩
  | completeRequest now w w2 h =>
    unfold completeRequest assertStatus at h
    split at h
    · cases h
    · cases h; exact ⟨by simpa using hiff, by simp⟩
  | commitRequest csrId now w w2 h =>
    unfold commitRequest at h
    split at h
    · cases h
    · cases h; exact ⟨by simp, by simp⟩
  | autoFlagRequest reason w =>
    refine ⟨?_, ?_⟩ <;>
      simp only [autoFlagRequest, createFlag, moveRequestToReviewOnOpenFlag] <;>
      simp
    exact hiff
  | manualFlagRequest csrId reason w =>
    refine ⟨?_, ?_⟩ <;>
      simp only [manualFlagRequest, createFlag, moveRequestToReviewOnOpenFlag] <;>
      simp
    exact hiff
  | acceptFlag i paId notes now w w2 h =>
    unfold acceptFlag at h
    match hf : w.flags.get? i with
    | none => rw [hf] at h; simp at h
    | some f =>
      rw [hf] at h
      simp only [Except.ok.injEq] at h
      subst h
      exact ⟨by simp, by simp⟩
  | rejectFlag i paId notes now w w2 h =>
    unfold rejectFlag at h
    match hf : w.flags.get? i with
    | none => rw [hf] at h; simp at h
    | some f =>
      rw [hf] at h
      simp only [Except.ok.injEq] at h
      subst h
      unfold moveRequestToReviewOnOpenFlag
      refine ⟨?_, by simp⟩
      split <;> simpa using hiff
  | setAssignmentPool cvIds w w2 h =>
    unfold setAssignmentPool at h
    split at h
    · cases h
    · simp only [ne_eq] at h
      split at h
      · cases h
      · cases h; exact ⟨by simpa using hiff, by simpa using hcomm⟩
  | sendOffers timeoutMinutes now w w2 h =>
    unfold sendOffers at h
    match hq : w.mq with
    | none => rw [hq] at h; simp at h
    | some mq =>
      rw [hq] at h
      simp only [] at h
      match hc : w.req.committedBy with
      | none => rw [hc] at h; simp at h
      | some c =>
        rw [hc] at h
        simp only [Except.ok.injEq] at h
        subst h
        exact ⟨by simpa using hiff, by simpa using hcomm⟩
  | recordCvDecision cvId accepted now w w2 h =>
    unfold recordCvDecision at h
    match hq : w.mq with
    | none => rw [hq] at h; simp at h
    | some mq =>
      rw [hq] at h
      simp only [] at h
      match hcur : getCurrentCv mq with
      | none => rw [hcur] at h; simp at h
      | some cur =>
        rw [hcur] at h
        simp only [] at h
        split at h
        · cases h
        · match hc : w.req.committedBy with
          | none => rw [hc] at h; simp at h
          | some c =>
            rw [hc] at h
            simp only [] at h
            split at h
            · simp only [Except.ok.injEq] at h
              subst h
              refine ⟨?_, by simp⟩
              simp only []
              constructor
              · intro hx
                exact absurd hx (by simp)
              · intro hat
                exact hc.symm.trans (hiff.mpr hat)
            · split at h
              · cases h
              · rename_i req2 mq2 notifs hadv
                simp only [Except.ok.injEq] at h
                subst h
                obtain ⟨hby, hat, _⟩ :=
                  advanceQueueCore_committed now w.req req2 mq mq2 notifs hadv
                refine ⟨?_, ?_⟩
                · simp only
                  rw [hby, hat]
                  exact hiff
                · intro _
                  simp only
                  rw [hby, hc]
                  simp
  | ensureCurrentQueue now w w2 h =>
    unfold ensureCurrentQueue at h
    match hq : w.mq with
    | none => rw [hq] at h; cases h; exact ⟨hiff, hcomm⟩
    | some mq =>
      rw [hq] at h
      simp only [] at h
      match hd : mq.deadline with
      | none => rw [hd] at h; cases h; exact ⟨hiff, hcomm⟩
      | some d =>
        rw [hd] at h
        simp only [] at h
        split at h
        · split at h
          · cases h
          · rename_i req2 mq2 notifs hadv
            simp only [Except.ok.injEq] at h
            subst h
            obtain ⟨hby, hat, hne⟩ :=
              advanceQueueCore_committed now w.req req2 mq mq2 notifs hadv
            refine ⟨by simp only; rw [hby, hat]; exact hiff, ?_⟩
            intro _
            simp only
            rw [hby]
            exact hne
        · cases h; exact ⟨hiff, hcomm⟩
  | sweep now c w w2 h =>
    unfold sweepOne at h
    match hq : w.mq with
    | none => rw [hq] at h; cases h; exact ⟨hiff, hcomm⟩
    | some mq =>
      rw [hq] at h
      simp only [] at h
      match hd : mq.deadline with
      | none => rw [hd] at h; cases h; exact ⟨hiff, hcomm⟩
      | some d =>
        rw [hd] at h
        simp only [] at h
        split at h
        · split at h
          · cases h
          · rename_i req2 mq2 notifs hadv
            simp only [Except.ok.injEq, Prod.mk.injEq] at h
            obtain ⟨h1, _⟩ := h
            subst h1
            obtain ⟨hby, hat, hne⟩ :=
              advanceQueueCore_committed now w.req req2 mq mq2 notifs hadv
            refine ⟨by simp only; rw [hby, hat]; exact hiff, ?_⟩
            intro _
            simp only
            rw [hby]
            exact hne
        · simp only [Except.ok.injEq, Prod.mk.injEq] at h
          obtain ⟨h1, _⟩ := h
          subst h1
          exact ⟨hiff, hcomm⟩

theorem reachable_commitInv (w : World) (h : Reachable w) : CommitInv w.req := by
  obtain ⟨w0, cvs, pin, serviceType, hc, hsteps⟩ := h
  have h0 : CommitInv w0.req := by
    unfold createRequest at hc
    split at hc
    · cases hc; exact ⟨by simp, by simp⟩
    · exact absurd hc (by simp)
  induction hsteps with
  | refl => exact h0
  | tail _ hstep ih => exact step_preserves_commitInv _ _ hstep ih

/-! ## Helper lemmas -/

theorem offerSlotCv_eq_getCurrentCv (mq : MatchQueue) (v : Nat)
    (h : getCurrentCv mq = some v) : offerSlotCv mq = some v := by
  unfold getCurrentCv at h
  unfold offerSlotCv
  split_ifs at h with h1 h2 h3
  · rw [h1]; simpa using h
  · rw [h2]; simpa using h
  · rw [h3]; simpa using h

/-! ## Demo fixtures used by closed theorems -/

/-- A PIN preferring Chinese and a female volunteer. -/
def pinDemo : Pin := { preferredLanguage := "zh", preferredGender := "female" }

/-- CV matching category, gender and main language of `reqDemoH`. -/
def cvDemoAll : CVProf :=
  { id := 10, gender := "female", mainLanguage := "zh", secondLanguage := "",
    categoryPref := "Healthcare" }

/-- CV matching only the category of `reqDemoH`. -/
def cvDemoCat : CVProf :=
  { id := 11, gender := "male", mainLanguage := "en", secondLanguage := "",
    categoryPref := "Healthcare" }

/-- CV matching none of the criteria of `reqDemoH`. -/
def cvDemoNone : CVProf :=
  { id := 12, gender := "male", mainLanguage := "en", secondLanguage := "",
    categoryPref := "Community Event" }

/-- A committed Healthcare request of `pinDemo` with committer stamp set. -/
def reqDemoH : Request :=
  { pin := pinDemo, serviceType := "Healthcare", cv := none, status := .committed,
    committedBy := some 1, committedAt := some 50, completedAt := none }

/-- A freshly built three-candidate queue. -/
def mqDemo3 : MatchQueue :=
  { cv1queue := some 10, cv2queue := some 11, cv3queue := some 12,
    currentIndex := 1, status := .pending, sentAt := none, deadline := none }

/-- Store state: committed request with a freshly built 3-candidate queue. -/
def wDemo3 : World :=
  { cvs := [cvDemoAll, cvDemoCat, cvDemoNone], req := reqDemoH,
    mq := some mqDemo3, flags := [], log := [] }

/-! ## Claim theorems -/

/-- Claim C2: on a committed request with a built queue, send_offers followed
by an accept decision of the cursor candidate leaves the request `active`
with that candidate assigned, the queue `filled`, and a match-accepted
notification recorded after the offer-sent one. Committed requests carry a
committer (`committed_by_csr`), which the notification writes read. -/
theorem claim_C2 (w : World) (mq : MatchQueue) (a csr t0 t1 : Nat)
    (hst : w.req.status = .committed) (hcb : w.req.committedBy = some csr)
    (hq : w.mq = some mq) (hcur : getCurrentCv mq = some a) :
    (sendOffers 30 t0 w).bind (recordCvDecision a true t1) =
      Except.ok
        { w with
          req := { w.req with cv := some a, status := .active },
          mq := some { mq with status := .filled, sentAt := some t0,
                               deadline := some (t0 + 30) },
          log := w.log ++ [{ ntype := .offerSent, cv := some a, rank := some mq.currentIndex },
                           { ntype := .matchAccepted, cv := some a, rank := none }] } := by
  unfold sendOffers
  rw [hq]
  simp only []
  rw [hcb]
  simp only [Except.bind]
  unfold recordCvDecision
  simp only []
  have hcur2 :
      getCurrentCv
        { mq with status := MQStatus.active, sentAt := some t0,
                  deadline := some (t0 + 30) } = some a := by
    unfold getCurrentCv at hcur ⊢
    simpa using hcur
  rw [hcur2]
  simp only []
  rw [hcb]
  have hslot :
      offerSlotCv
        { mq with status := MQStatus.active, sentAt := some t0,
                  deadline := some (t0 + 30) } = some a :=
    offerSlotCv_eq_getCurrentCv _ a hcur2
  simp [hslot]

/-- Witness for C2 at a concrete store. -/
theorem claim_C2_witness :
    wDemo3.req.status = .committed ∧ wDemo3.req.committedBy = some 1 ∧
      wDemo3.mq = some mqDemo3 ∧ getCurrentCv mqDemo3 = some 10 ∧
      (sendOffers 30 100 wDemo3).bind (recordCvDecision 10 true 101) =
        Except.ok
          { wDemo3 with
            req := { wDemo3.req with cv := some 10, status := .active },
            mq := some { mqDemo3 with status := .filled, sentAt := some 100,
                                      deadline := some (100 + 30) },
            log := wDemo3.log ++
              [{ ntype := .offerSent, cv := some 10, rank := some mqDemo3.currentIndex },
               { ntype := .matchAccepted, cv := some 10, rank := none }] } :=
  ⟨rfl, rfl, rfl, rfl, claim_C2 wDemo3 mqDemo3 10 1 100 101 rfl rfl rfl rfl⟩

/-- Claim C3: a decision is rejected with the invalid-state error whenever
the queue is not `active` or the submitted CV is not the cursor candidate
(the transaction rolls back, so the store is unchanged); a decision that
returns successfully was necessarily taken on an `active` queue for the
cursor candidate. -/
theorem claim_C3 (w : World) (mq : MatchQueue) (cvId : Nat) (accepted : Bool) (now : Nat)
    (hq : w.mq = some mq) :
    (¬ (mq.status = .active ∧ getCurrentCv mq = some cvId) →
        recordCvDecision cvId accepted now w = .error .invalidDecision) ∧
      (∀ w2, recordCvDecision cvId accepted now w = .ok w2 →
        mq.status = .active ∧ getCurrentCv mq = some cvId) := by
  unfold recordCvDecision
  rw [hq]
  simp only []
  match hcur : getCurrentCv mq with
  | none =>
    exact ⟨fun _ => rfl, fun w2 h => Except.noConfusion h⟩
  | some cur =>
    simp only []
    constructor
    · intro hn
      split
      · rfl
      · rename_i hcond
        push_neg at hcond
        exact absurd ⟨hcond.2, by rw [hcond.1]⟩ hn
    · intro w2 h
      split at h
      · exact Except.noConfusion h
      · rename_i hcond
        push_neg at hcond
        exact ⟨hcond.2, by rw [hcond.1]⟩

/-- Witness for C3: a decision by the second-ranked candidate while the
cursor is at the first is rejected with the invalid-state error. -/
theorem claim_C3_witness :
    wDemo3.mq = some mqDemo3 ∧
      ¬ (mqDemo3.status = .active ∧ getCurrentCv mqDemo3 = some 11) ∧
      recordCvDecision 11 true 100 wDemo3 = .error .invalidDecision :=
  ⟨rfl, by decide,
   (claim_C3 wDemo3 mqDemo3 11 true 100 rfl).1 (by decide)⟩

/-- Claim C8: creating an auto or manual flag, or saving any unresolved
flag, forces the parent request status to `review` regardless of its prior
status (the post-save receiver fires on every save of an unresolved flag). -/
theorem claim_C8 :
    (∀ w csrId reason, (manualFlagRequest csrId reason w).req.status = .review) ∧
      (∀ w reason, (autoFlagRequest reason w).req.status = .review) ∧
      (∀ r f, f.resolved = false → (moveRequestToReviewOnOpenFlag f r).status = .review) := by
  refine ⟨?_, ?_, ?_⟩
  · intro w csrId reason
    simp [manualFlagRequest, createFlag, moveRequestToReviewOnOpenFlag]
  · intro w reason
    simp [autoFlagRequest, createFlag, moveRequestToReviewOnOpenFlag]
  · intro r f hf
    simp [moveRequestToReviewOnOpenFlag, hf]

/-- Witness for C8: saving an unresolved flag on an active request moves it
to review. -/
theorem claim_C8_witness :
    ({ kind := .manual, csr := some 2, reason := "spam", resolved := false,
       resolvedAt := none, resolvedBy := none, notes := "",
       outcome := none } : Flag).resolved = false ∧
      (moveRequestToReviewOnOpenFlag
        { kind := .manual, csr := some 2, reason := "spam", resolved := false,
          resolvedAt := none, resolvedBy := none, notes := "", outcome := none }
        { reqDemoH with status := .active }).status = .review :=
  ⟨rfl, claim_C8.2.2 { reqDemoH with status := .active }
    { kind := .manual, csr := some 2, reason := "spam", resolved := false,
      resolvedAt := none, resolvedBy := none, notes := "", outcome := none } rfl⟩

/-- A pending request that was never committed, carrying a built queue. -/
def wNoCommitter : World :=
  { cvs := [],
    req := { pin := pinDemo, serviceType := "Healthcare", cv := none,
             status := .pending, committedBy := none, committedAt := none,
             completedAt := none },
    mq := some { cv1queue := some 10, cv2queue := none, cv3queue := none,
                 currentIndex := 1, status := .exhausted, sentAt := none,
                 deadline := none },
    flags := [], log := [] }

/-- Claim C10 counterexample: a request and its queue both exist, yet
send_offers fails, because the request has no committer and the
notification recipient lookup `req.committed_by_csr.user` raises. -/
theorem claim_C10_counterexample :
    wNoCommitter.mq ≠ none ∧ sendOffers 30 5 wNoCommitter = .error .noCommitter :=
  ⟨by decide, rfl⟩

/-- Claim C10 (amended): for a request with a committer, send_offers
succeeds regardless of the queue status (also `filled` and `exhausted`,
re-activating a terminal queue without a rebuild), setting the queue
`active` with `sentAt = now` and `deadline = now + timeout` and recording
one offer-sent notification for the candidate at the cursor. -/
theorem claim_C10_amended (w : World) (mq : MatchQueue) (c timeout now : Nat)
    (hq : w.mq = some mq) (hcb : w.req.committedBy = some c) :
    sendOffers timeout now w =
      Except.ok
        { w with
          mq := some { mq with status := .active, sentAt := some now,
                               deadline := some (now + timeout) },
          log := w.log ++ [{ ntype := .offerSent, cv := offerSlotCv mq,
                             rank := some mq.currentIndex }] } := by
  unfold sendOffers
  rw [hq]
  simp only []
  rw [hcb]
  rfl

/-- An exhausted single-candidate queue on a committed request. -/
def mqExhausted : MatchQueue :=
  { cv1queue := some 10, cv2queue := none, cv3queue := none,
    currentIndex := 1, status := .exhausted, sentAt := some 1, deadline := some 2 }

/-- Store state with the exhausted queue `mqExhausted`. -/
def wExhausted : World :=
  { cvs := [], req := reqDemoH, mq := some mqExhausted, flags := [], log := [] }

/-- Witness for the amended C10: an exhausted queue is re-activated. -/
theorem claim_C10_witness :
    wExhausted.mq = some mqExhausted ∧ wExhausted.req.committedBy = some 1 ∧
      mqExhausted.status = .exhausted ∧
      sendOffers 30 200 wExhausted =
        Except.ok
          { wExhausted with
            mq := some { mqExhausted with status := .active, sentAt := some 200,
                                          deadline := some (200 + 30) },
            log := wExhausted.log ++ [{ ntype := .offerSent, cv := offerSlotCv mqExhausted,
                                        rank := some mqExhausted.currentIndex }] } :=
  ⟨rfl, rfl, rfl, claim_C10_amended wExhausted mqExhausted 1 30 200 rfl rfl⟩

/-- Store state of a request just created in review (over an empty CV
population). -/
def wReview : World :=
  { cvs := [],
    req := { pin := pinDemo, serviceType := "Healthcare", cv := none,
             status := .review, committedBy := none, committedAt := none,
             completedAt := none },
    mq := none, flags := [], log := [] }

/-- The same request after moderation passes. -/
def wPending : World :=
  { wReview with req := { wReview.req with status := .pending } }

/-- The same request after a direct assign of CV 5: `active`, but with no
committer stamps. -/
def wActiveNoStamp : World :=
  { wPending with req := { wPending.req with cv := some 5, status := .active } }

/-- Claim C7 counterexample: the state reached by create, moderation pass
and direct assign is `active` while both committer fields are null,
violating the claimed clause that `active` requests carry both stamps. -/
theorem claim_C7_counterexample :
    Reachable wActiveNoStamp ∧ wActiveNoStamp.req.status = .active ∧
      wActiveNoStamp.req.committedBy = none ∧ wActiveNoStamp.req.committedAt = none := by
  refine ⟨⟨wReview, [], pinDemo, "Healthcare", rfl, ?_⟩, rfl, rfl, rfl⟩
  exact Relation.ReflTransGen.head (Step.moderationPass wReview wPending rfl)
    (Relation.ReflTransGen.single (Step.assignCv 5 wPending wActiveNoStamp rfl))

/-- Claim C7 (amended): at every reachable store state, `committed_by` and
`committed_at` are both null or both set, and a `committed` request carries
a committer; the stronger status-linked clauses of the original claim fail
(see the counterexample: direct assign gives `active` with both null, and
unassign demotes to `pending` without clearing them). -/
theorem claim_C7_amended (w : World) (h : Reachable w) :
    (w.req.committedBy = none ↔ w.req.committedAt = none) ∧
      (w.req.status = .committed → w.req.committedBy ≠ none) :=
  reachable_commitInv w h

/-- Witness for the amended C7 at the freshly created store state. -/
theorem claim_C7_witness :
    Reachable wReview ∧
      ((wReview.req.committedBy = none ↔ wReview.req.committedAt = none) ∧
        (wReview.req.status = .committed → wReview.req.committedBy ≠ none)) :=
  ⟨⟨wReview, [], pinDemo, "Healthcare", rfl, Relation.ReflTransGen.refl⟩,
   claim_C7_amended wReview
     ⟨wReview, [], pinDemo, "Healthcare", rfl, Relation.ReflTransGen.refl⟩⟩

/-- A registered CV used by the C6 fixtures. -/
def cvDemo7 : CVProf :=
  { id := 7, gender := "male", mainLanguage := "en", secondLanguage := "",
    categoryPref := "Therapy" }

/-- Store state whose request is `active` (neither pending nor committed). -/
def wActiveReq : World :=
  { cvs := [cvDemo7],
    req := { pin := pinDemo, serviceType := "Healthcare", cv := some 7,
             status := .active, committedBy := none, committedAt := none,
             completedAt := none },
    mq := none, flags := [], log := [] }

/-- Claim C6 counterexample: build succeeds on a request whose status is
neither pending nor committed (no status check exists in the source), and
also succeeds on a duplicated candidate list (no distinctness check). -/
theorem claim_C6_counterexample :
    wActiveReq.req.status ≠ .pending ∧ wActiveReq.req.status ≠ .committed ∧
      setAssignmentPool [7] wActiveReq =
        Except.ok
          { wActiveReq with
            mq := some { cv1queue := some 7, cv2queue := none, cv3queue := none,
                         currentIndex := 1, status := .pending, sentAt := none,
                         deadline := none } } ∧
      setAssignmentPool [7, 7] wActiveReq =
        Except.ok
          { wActiveReq with
            mq := some { cv1queue := some 7, cv2queue := some 7, cv3queue := none,
                         currentIndex := 1, status := .pending, sentAt := none,
                         deadline := none } } :=
  ⟨by decide, by decide, rfl, rfl⟩

/-- Claim C6 (amended): build fails with the count validation error when
the list has fewer than 1 or more than 3 entries, fails with the
resolution error when some id is unregistered, and otherwise succeeds for
any request status and any (possibly duplicated) ids, fully overwriting
the queue with the submitted order, cursor 1, status pending and cleared
timestamps, leaving the request row untouched. -/
theorem claim_C6_amended (w : World) (cvIds : List Nat) :
    (¬ (1 ≤ cvIds.length ∧ cvIds.length ≤ 3) →
        setAssignmentPool cvIds w = .error .pickCount) ∧
      (1 ≤ cvIds.length ∧ cvIds.length ≤ 3 →
        (∃ cid ∈ cvIds, ¬ (w.cvs.any fun cv => cv.id = cid) = true) →
        setAssignmentPool cvIds w = .error .cvsNotFound) ∧
      (1 ≤ cvIds.length ∧ cvIds.length ≤ 3 →
        (∀ cid ∈ cvIds, (w.cvs.any fun cv => cv.id = cid) = true) →
        setAssignmentPool cvIds w =
          Except.ok
            { w with
              mq := some { cv1queue := cvIds.get? 0, cv2queue := cvIds.get? 1,
                           cv3queue := cvIds.get? 2, currentIndex := 1,
                           status := .pending, sentAt := none,
                           deadline := none } }) := by
  refine ⟨?_, ?_, ?_⟩
  · intro hn
    unfold setAssignmentPool
    split
    · rfl
    · rename_i hcond
      exact absurd hn hcond
  · intro hlen hex
    unfold setAssignmentPool
    split
    · rename_i hcond
      exact absurd hlen hcond
    · simp only [ne_eq]
      split
      · rfl
      · rename_i hne
        exact absurd
          (Nat.ne_of_lt (List.length_filter_lt_length_iff_exists.mpr hex)) hne
  · intro hlen hall
    have hfilter : (cvIds.filter fun cid => w.cvs.any fun cv => cv.id = cid) = cvIds :=
      List.filter_eq_self.mpr hall
    unfold setAssignmentPool
    split
    · rename_i hcond
      exact absurd hlen hcond
    · simp only [ne_eq, hfilter]
      simp

/-- Witness for the amended C6 (an unregistered id is rejected, and a
valid build on `wDemo3` overwrites its previous queue). -/
theorem claim_C6_witness :
    (1 ≤ ([99, 10] : List Nat).length ∧ ([99, 10] : List Nat).length ≤ 3) ∧
      (∃ cid ∈ ([99, 10] : List Nat), ¬ (wDemo3.cvs.any fun cv => cv.id = cid) = true) ∧
      setAssignmentPool [99, 10] wDemo3 = .error .cvsNotFound ∧
      (∀ cid ∈ ([12, 10] : List Nat), (wDemo3.cvs.any fun cv => cv.id = cid) = true) ∧
      setAssignmentPool [12, 10] wDemo3 =
        Except.ok
          { wDemo3 with
            mq := some { cv1queue := some 12, cv2queue := some 10, cv3queue := none,
                         currentIndex := 1, status := .pending, sentAt := none,
                         deadline := none } } :=
  ⟨by decide, by decide,
   (claim_C6_amended wDemo3 [99, 10]).2.1 (by decide) (by decide),
   by decide,
   (claim_C6_amended wDemo3 [12, 10]).2.2 (by decide) (by decide)⟩

/-- An active two-candidate queue whose offer deadline (5) has passed. -/
def mqExpired : MatchQueue :=
  { cv1queue := some 10, cv2queue := some 11, cv3queue := none,
    currentIndex := 1, status := .active, sentAt := some 0, deadline := some 5 }

/-- Store state with the expired active queue `mqExpired` on a committed
request. -/
def wExpired : World :=
  { cvs := [], req := reqDemoH, mq := some mqExpired, flags := [], log := [] }

/-- The state of `wExpired` after the expired queue is advanced at time 6
by the assignment-pool read. -/
def wExpiredAdv : World :=
  { wExpired with
    mq := some { mqExpired with currentIndex := 2, sentAt := some 6,
                                deadline := some 36 },
    log := [{ ntype := .queueAdvanced, cv := some 11, rank := some 2 }] }

/-- Claim C5 counterexample: fetching the assignment pool (whose state
effect is `ensure_current_queue`) advances an expired active queue, so the
sweep is not the only operation that turns a passed deadline into a state
transition. -/
theorem claim_C5_counterexample :
    mqExpired.status = .active ∧ mqExpired.deadline = some 5 ∧ (5 : Nat) < 6 ∧
      ensureCurrentQueue 6 wExpired = .ok wExpiredAdv ∧ wExpiredAdv ≠ wExpired :=
  ⟨rfl, rfl, by decide, rfl, by decide⟩

/-- Claim C5 (amended): both the dormant sweep and the assignment-pool read
(`ensure_current_queue`) turn a passed deadline into the same queue advance
(the sweep additionally records an offer-expired notification); on a queue
that is not active or not past its deadline the read changes nothing. -/
theorem claim_C5_amended (now : Nat) (w : World) (mq : MatchQueue)
    (hq : w.mq = some mq) :
    (∀ d, mq.deadline = some d → mq.status = .active → d < now →
        ensureCurrentQueue now w =
          (advanceQueueCore now w.req mq).map fun r =>
            { w with req := r.1, mq := some r.2.1, log := w.log ++ r.2.2 }) ∧
      (∀ d, mq.deadline = some d → ¬ (mq.status = .active ∧ d < now) →
        ensureCurrentQueue now w = .ok w) ∧
      (mq.deadline = none → ensureCurrentQueue now w = .ok w) := by
  unfold ensureCurrentQueue
  rw [hq]
  simp only []
  refine ⟨?_, ?_, ?_⟩
  · intro d hd hact hlt
    rw [hd]
    simp only []
    rw [if_pos ⟨hact, hlt⟩]
    match hadv : advanceQueueCore now w.req mq with
    | .error e => simp [Except.map]
    | .ok r => simp [Except.map]
  · intro d hd hn
    rw [hd]
    simp only []
    rw [if_neg hn]
  · intro hd
    rw [hd]

/-- Witness for the amended C5 at the expired queue fixture. -/
theorem claim_C5_witness :
    wExpired.mq = some mqExpired ∧ mqExpired.deadline = some 5 ∧
      mqExpired.status = .active ∧ (5 : Nat) < 6 ∧
      ensureCurrentQueue 6 wExpired =
        (advanceQueueCore 6 wExpired.req mqExpired).map fun r =>
          { wExpired with req := r.1, mq := some r.2.1, log := wExpired.log ++ r.2.2 } :=
  ⟨rfl, rfl, rfl, by decide,
   (claim_C5_amended 6 wExpired mqExpired rfl).1 5 rfl rfl (by decide)⟩

/-- After a sweep advanced a queue at time `now`, the queue no longer
satisfies the dormancy condition at the same `now`: either it was
exhausted or its fresh deadline `now + 30` lies in the future; a second
sweep pass therefore skips it. -/
theorem sweepOne_second_pass (now : Nat) (w w2 : World) (c : Nat)
    (h : sweepOne now w = .ok (w2, c)) : sweepOne now w2 = .ok (w2, 0) := by
  unfold sweepOne at h
  match hq : w.mq with
  | none =>
    rw [hq] at h
    simp only [Except.ok.injEq, Prod.mk.injEq] at h
    obtain ⟨h1, _⟩ := h
    subst h1
    unfold sweepOne
    rw [hq]
  | some mq =>
    rw [hq] at h
    simp only [] at h
    match hd : mq.deadline with
    | none =>
      rw [hd] at h
      simp only [Except.ok.injEq, Prod.mk.injEq] at h
      obtain ⟨h1, _⟩ := h
      subst h1
      unfold sweepOne
      rw [hq]
      simp only []
      rw [hd]
    | some d =>
      rw [hd] at h
      simp only [] at h
      split at h
      · split at h
        · cases h
        · rename_i req2 mq2 notifs hadv
          simp only [Except.ok.injEq, Prod.mk.injEq] at h
          obtain ⟨h1, _⟩ := h
          subst h1
          unfold advanceQueueCore at hadv
          match hcb : w.req.committedBy with
          | none => rw [hcb] at hadv; cases hadv
          | some cc =>
            rw [hcb] at hadv
            simp only [] at hadv
            split at hadv
            · simp only [Except.ok.injEq, Prod.mk.injEq] at hadv
              obtain ⟨_, hmq2, _⟩ := hadv
              subst hmq2
              unfold sweepOne
              simp only []
              rw [if_neg (by simp)]
            · simp only [Except.ok.injEq, Prod.mk.injEq] at hadv
              obtain ⟨_, hmq2, _⟩ := hadv
              subst hmq2
              unfold sweepOne
              simp only []
              rw [hd]
              simp only []
              rw [if_neg (by simp)]
      · rename_i hcond
        simp only [Except.ok.injEq, Prod.mk.injEq] at h
        obtain ⟨h1, _⟩ := h
        subst h1
        unfold sweepOne
        rw [hq]
        simp only []
        rw [hd]
        simp only []
        rw [if_neg hcond]

/-- Claim C4: the dormant sweep is idempotent — when a sweep pass at time
`now` completes, an immediately repeated pass at the same time over the
resulting store advances no queue and leaves the store unchanged. -/
theorem claim_C4 (now : Nat) (store store2 : List World) (n : Nat)
    (h : autoAdvanceDormant now store = .ok (store2, n)) :
    autoAdvanceDormant now store2 = .ok (store2, 0) := by
  induction store generalizing store2 n with
  | nil =>
    unfold autoAdvanceDormant at h
    simp only [Except.ok.injEq, Prod.mk.injEq] at h
    obtain ⟨h1, _⟩ := h
    subst h1
    rfl
  | cons w ws ih =>
    unfold autoAdvanceDormant at h
    split at h
    · cases h
    · rename_i w2 c hsw
      split at h
      · cases h
      · rename_i ws2 m hrec
        simp only [Except.ok.injEq, Prod.mk.injEq] at h
        obtain ⟨h1, _⟩ := h
        subst h1
        have hsw2 := sweepOne_second_pass now w w2 c hsw
        have hrec2 := ih ws2 m hrec
        unfold autoAdvanceDormant
        rw [hsw2]
        simp only []
        rw [hrec2]

/-- The store `[wExpired]` after the sweep at time 6. -/
def wExpiredSwept : World :=
  { wExpired with
    mq := some { mqExpired with currentIndex := 2, sentAt := some 6,
                                deadline := some 36 },
    log := [{ ntype := .queueAdvanced, cv := some 11, rank := some 2 },
            { ntype := .offerExpired, cv := some 11, rank := none }] }

/-- Witness for C4: sweeping the one-queue store `[wExpired]` at time 6
advances it once; the repeated sweep at time 6 advances nothing. -/
theorem claim_C4_witness :
    autoAdvanceDormant 6 [wExpired] = .ok ([wExpiredSwept], 1) ∧
      autoAdvanceDormant 6 [wExpiredSwept] = .ok ([wExpiredSwept], 0) :=
  ⟨rfl, claim_C4 6 [wExpired] [wExpiredSwept] 1 rfl⟩

/-- The three-decline run on the demo store `wDemo3`. -/
def runDeclines : Except Err World :=
  (((sendOffers 30 100 wDemo3).bind (recordCvDecision 10 false 101)).bind
      (recordCvDecision 11 false 102)).bind (recordCvDecision 12 false 103)

/-- Claim C1 counterexample: after send_offers and three declines on a
3-candidate queue, the notification log holds exactly one offer-sent event,
not three — the advance step emits queue-advanced without a fresh
offer-sent. -/
theorem claim_C1_counterexample :
    (runDeclines.map fun w => (w.log.filter fun n => n.ntype = .offerSent).length) =
        .ok 1 ∧
      (1 : Nat) ≠ 3 :=
  ⟨rfl, by decide⟩

/-- Claim C1 (amended): on a committed request with a freshly built
3-candidate queue, send_offers followed by three declines of the cursor
candidates drives the queue to `exhausted` and the request back to
`committed` with its assignee cleared; the log gains, in order, one
offer-sent event, then for each declined candidate an offer-declined event
followed for the first two by a queue-advanced event for the next
candidate, and finally a no-match-found event — 1 offer-sent, 3
offer-declined, 2 queue-advanced, 1 no-match-found. -/
theorem claim_C1_amended (w : World) (a b c csr t0 t1 t2 t3 : Nat)
    (hab : a ≠ b) (hac : a ≠ c) (hbc : b ≠ c)
    (hst : w.req.status = .committed) (hcb : w.req.committedBy = some csr)
    (hq : w.mq = some { cv1queue := some a, cv2queue := some b, cv3queue := some c,
                        currentIndex := 1, status := .pending, sentAt := none,
                        deadline := none }) :
    (((sendOffers 30 t0 w).bind (recordCvDecision a false t1)).bind
        (recordCvDecision b false t2)).bind (recordCvDecision c false t3) =
      Except.ok
        { w with
          req := { w.req with status := .committed, cv := none },
          mq := some { cv1queue := some a, cv2queue := some b, cv3queue := some c,
                       currentIndex := 3, status := .exhausted, sentAt := some t2,
                       deadline := some (t2 + 30) },
          log := w.log ++
            [{ ntype := .offerSent, cv := some a, rank := some 1 },
             { ntype := .offerDeclined, cv := some a, rank := none },
             { ntype := .queueAdvanced, cv := some b, rank := some 2 },
             { ntype := .offerDeclined, cv := some b, rank := none },
             { ntype := .queueAdvanced, cv := some c, rank := some 3 },
             { ntype := .offerDeclined, cv := some c, rank := none },
             { ntype := .noMatchFound, cv := none, rank := none }] } := by
  simp only [sendOffers, hq, hcb, Except.bind, recordCvDecision, getCurrentCv,
             advanceQueueCore, offerSlotCv]
  simp [hcb, List.append_assoc]

/-- Witness for the amended C1 on the demo store. -/
theorem claim_C1_witness :
    (10 : Nat) ≠ 11 ∧ (10 : Nat) ≠ 12 ∧ (11 : Nat) ≠ 12 ∧
      wDemo3.req.status = .committed ∧ wDemo3.req.committedBy = some 1 ∧
      wDemo3.mq = some { cv1queue := some 10, cv2queue := some 11, cv3queue := some 12,
                         currentIndex := 1, status := .pending, sentAt := none,
                         deadline := none } ∧
      runDeclines =
        Except.ok
          { wDemo3 with
            req := { wDemo3.req with status := .committed, cv := none },
            mq := some { cv1queue := some 10, cv2queue := some 11, cv3queue := some 12,
                         currentIndex := 3, status := .exhausted, sentAt := some 102,
                         deadline := some (102 + 30) },
            log := wDemo3.log ++
              [{ ntype := .offerSent, cv := some 10, rank := some 1 },
               { ntype := .offerDeclined, cv := some 10, rank := none },
               { ntype := .queueAdvanced, cv := some 11, rank := some 2 },
               { ntype := .offerDeclined, cv := some 11, rank := none },
               { ntype := .queueAdvanced, cv := some 12, rank := some 3 },
               { ntype := .offerDeclined, cv := some 12, rank := none },
               { ntype := .noMatchFound, cv := none, rank := none }] } :=
  ⟨by decide, by decide, by decide, rfl, rfl, rfl,
   claim_C1_amended wDemo3 10 11 12 1 100 101 102 103
     (by decide) (by decide) (by decide) rfl rfl rfl⟩

/-- Claim C9 counterexample: a CV matching none of the criteria scores 1,
not the 0 the claim formula yields — the scorer adds an unconditional +1
availability placeholder the claim omits. -/
theorem claim_C9_counterexample :
    (scoreCvForRequest reqDemoH cvDemoNone).1 = 1 ∧
      claimScore reqDemoH cvDemoNone = 0 ∧
      (scoreCvForRequest reqDemoH cvDemoNone).1 ≠ claimScore reqDemoH cvDemoNone :=
  ⟨by decide, by decide, by decide⟩

/-- Claim C9 (amended): the score equals the claim formula plus an
unconditional +1 placeholder; suggest_top returns suggestions sorted by
score descending and truncated to `limit`; and for a Healthcare request
from a PIN preferring language zh and gender female, a CV matching
category, gender and main language scores strictly higher than a CV
matching only category, which scores strictly higher than a CV matching
nothing. -/
theorem claim_C9_amended :
    (∀ req cv, (scoreCvForRequest req cv).1 = claimScore req cv + 1) ∧
      (∀ req cvs limit,
        List.Sorted (· ≥ ·) ((suggestTop req cvs limit).map Suggestion.score) ∧
          (suggestTop req cvs limit).length ≤ limit) ∧
      (scoreCvForRequest reqDemoH cvDemoAll).1 > (scoreCvForRequest reqDemoH cvDemoCat).1 ∧
      (scoreCvForRequest reqDemoH cvDemoCat).1 > (scoreCvForRequest reqDemoH cvDemoNone).1 := by
  refine ⟨?_, ?_, by decide, by decide⟩
  · intro req cv
    simp only [scoreCvForRequest, claimScore]
    split_ifs <;> simp <;> omega
  · intro req cvs limit
    constructor
    · unfold suggestTop
      refine List.pairwise_map.mpr ?_
      refine List.Pairwise.sublist (List.take_sublist _ _) ?_
      have hp :=
        @List.sorted_mergeSort Suggestion (fun a b => decide (b.score ≤ a.score))
          (by intro a b c h1 h2; simp only [decide_eq_true_eq] at *; omega)
          (by intro a b; simp only [Bool.or_eq_true, decide_eq_true_eq]; omega)
          (cvs.filterMap fun cv =>
            let sw := scoreCvForRequest req cv
            if sw.1 > 0 then some ⟨cv.id, sw.1, sw.2⟩ else none)
      exact hp.imp fun h => by simpa using h
    · unfold suggestTop
      exact List.length_take_le _ _

end HelpingHands
